import Mathlib

/-!
Verification development for `src/eximpulse.py`, a single-page dashboard
script.  The data-fetch layer (quote lookup, news lookup, weather lookup),
the static symbol-mapping tables and the TTL-memoized cache wrapper are
embedded shallowly below; the rendering glue is out of scope.

Conventions of the embedding:
* Remote HTTP/library calls are abstracted as operation parameters of type
  `Except Unit α` (or functions producing such a value); `.error ()` stands
  for any raised exception, timeout included.
* Python catch-all `try/except` blocks become a `match` on the `Except`
  outcome of the translated body.
* Prices are rationals (`ℚ`); pandas negative `iloc` indexing is translated
  by `iloc` below, which raises (returns `.error`) out of bounds exactly as
  pandas does.
-/

namespace Eximpulse

/-- One row of the pandas history DataFrame returned by
`yf.Ticker(...).history(period="5d")`: the columns read by the script. -/
structure PriceRow where
  Open : ℚ
  High : ℚ
  Low : ℚ
  Close : ℚ
  Volume : ℚ
deriving DecidableEq, Repr

/-- The history DataFrame: its rows, plus whether a `Volume` column is
present (the script tests `'Volume' in history`). -/
structure HistoryDF where
  rows : List PriceRow
  hasVolume : Bool
deriving DecidableEq, Repr

/-- The dictionary returned by `get_live_price` on success
(`price`/`change`/`volume`/`history`/`status`). -/
structure Quote where
  price : ℚ
  change : ℚ
  volume : ℚ
  history : List PriceRow
  status : String
deriving DecidableEq, Repr

/-- Pandas `Series.iloc[i]` with support for negative indices: a negative
`i` counts from the end, and an out-of-range index raises `IndexError`,
modelled as `.error ()`. -/
def iloc {α : Type} (xs : List α) (i : ℤ) : Except Unit α :=
  let j : ℤ := if i < 0 then (xs.length : ℤ) + i else i
  if 0 ≤ j ∧ j < (xs.length : ℤ) then
    match xs.get? j.toNat with
    | some a => .ok a
    | none => .error ()
  else .error ()

/-- Body of the `try:` block of `get_live_price` (lines 100–117), acting on
the fetched history.  Exceptions raised inside (in particular the
`IndexError` from `history['Close'].iloc[-2]` on a one-row history) are
propagated as `.error`. -/
def get_live_price_body (history : HistoryDF) : Except Unit (Option Quote) :=
  if history.rows = [] then .ok none
  else
    (iloc (history.rows.map PriceRow.Close) (-1)).bind fun current_price =>
    (iloc (history.rows.map PriceRow.Close) (-2)).bind fun prev_close =>
    let change_pct := (current_price - prev_close) / prev_close * 100
    (if history.hasVolume then iloc (history.rows.map PriceRow.Volume) (-1)
     else .ok 0).bind fun volume =>
    .ok (some { price := current_price, change := change_pct,
                volume := volume, history := history.rows,
                status := "Live 🟢" })

/-- The function `get_live_price` (lines 97–120), with the remote
`yf.Ticker(...).history(period="5d")` call abstracted by its outcome
`opResult`.  The catch-all `except Exception` returns `None` on any
failure; an empty history also yields `None`. -/
def get_live_price (opResult : Except Unit HistoryDF) : Option Quote :=
  match opResult.bind get_live_price_body with
  | .ok r => r
  | .error _ => none

/-- One article of the news API response, with the two fields the script
reads (`a['title']` and `a['source']['name']`). -/
structure Article where
  title : String
  source_name : String
deriving DecidableEq, Repr

/-- The function `get_news_ticker` (lines 122–133).  The HTTP GET is
abstracted by `netOp`, which receives the `timeout` argument passed at the
call site (`requests.get(url, timeout=3)`); its list is the value of
`data.get('articles', [])`.  The second component records whether the
network operation was invoked: with an empty API key the function returns
before any network call. -/
def get_news_ticker (apiKey : String)
    (netOp : ℕ → Except Unit (List Article)) : String × Bool :=
  if apiKey = "" then
    ("⚠️ News API Key Missing. Add to secrets.toml to see live news.", false)
  else
    match netOp 3 with
    | .error _ => ("News feed unavailable.", true)
    | .ok arts =>
      let articles := arts.take 10
      if articles = [] then ("No recent news found.", true)
      else
        (String.intercalate "   +++   "
          (articles.map (fun a =>
            "📰 " ++ a.title ++ " (" ++ a.source_name ++ ")")), true)

/-- The `current_weather` object read from the open-meteo response: the two
fields the dashboard renders. -/
structure CurrentWeather where
  temperature : ℚ
  windspeed : ℚ
deriving DecidableEq, Repr

/-- The static coordinate dictionary of `get_weather` (line 136). -/
def coords : List (String × ℚ × ℚ) :=
  [("Mundra", 22.8, 69.7), ("JNPT", 18.9, 72.9),
   ("Chennai", 13.0, 80.2), ("Kolkata", 22.5, 88.3)]

/-- The function `get_weather` (lines 135–142).  `coords.get(port, [22.8,
69.7])` becomes a `List.lookup` with the same default; the HTTP GET plus
`['current_weather']` access is abstracted by `netOp`, which receives the
latitude/longitude and the `timeout=2` argument of the call site, and the
catch-all `except` returns `None`. -/
def get_weather (port : String)
    (netOp : ℚ × ℚ → ℕ → Except Unit CurrentWeather) : Option CurrentWeather :=
  let c := (coords.lookup port).getD (22.8, 69.7)
  match netOp c 2 with
  | .ok w => some w
  | .error _ => none

/-- The static commodity-to-ticker table `COMMODITY_MAP` (lines 82–92). -/
def COMMODITY_MAP : List (String × String) :=
  [("Cotton (5201)", "CT=F"),
   ("Coffee (0901)", "KC=F"),
   ("Sugar (1701)", "SB=F"),
   ("Wheat (1001)", "ZW=F"),
   ("Corn (1005)", "ZC=F"),
   ("Soybean (1201)", "ZS=F"),
   ("Silver (7106)", "SI=F"),
   ("Crude Oil", "CL=F"),
   ("Cocoa (1801)", "CC=F")]

/-- The currency-to-ticker table `map_fx` (line 185). -/
def map_fx : List (String × String) :=
  [("USD/INR", "INR=X"), ("EUR/INR", "EURINR=X"), ("GBP/INR", "GBPINR=X")]

/-- Options of the currency-pair selectbox (line 152). -/
def currency_options : List String := ["USD/INR", "EUR/INR", "GBP/INR"]

/-- Options of the commodity selectbox (line 208):
`list(COMMODITY_MAP.keys())`. -/
def commodity_options : List String := COMMODITY_MAP.map Prod.fst

/-- A remote call site of the fetch layer with the `timeout` argument it
passes (in seconds), `none` when the call site passes no timeout. -/
structure RemoteCall where
  provider : String
  timeout : Option ℕ
deriving DecidableEq, Repr

/-- The three remote operations performed by the fetch layer, with the
timeout arguments literally present at their call sites: the yfinance
history call (lines 100–101) passes no timeout, the news API GET (line
127) passes `timeout=3`, the open-meteo GET (line 140) passes
`timeout=2`. -/
def remote_calls : List RemoteCall :=
  [{ provider := "yfinance", timeout := none },
   { provider := "newsapi", timeout := some 3 },
   { provider := "open-meteo", timeout := some 2 }]

/-- An entry of the TTL cache: the stored value and its insertion time
(seconds). -/
structure CacheEntry (α : Type) where
  value : α
  insertedAt : ℕ
deriving DecidableEq, Repr

/-- The cache state: an association of keys to entries, newest binding
first (a fresh insertion shadows any stale entry under lookup, which is
the overwrite of §4.1). -/
abbrev CacheState (α : Type) := List (String × CacheEntry α)

/-- Outcome of one memoized fetch: the returned value (`none` is the
failure sentinel), the cache state afterwards, and whether the underlying
operation was invoked. -/
structure FetchResult (α : Type) where
  result : Option α
  state : CacheState α
  invoked : Bool
deriving DecidableEq, Repr

/-- Modelled from the spec: the memoization performed by the
`@st.cache_data(ttl=...)` decorator on `get_live_price` (line 96).  The
decorator's machinery is third-party library code absent from the
repository sources, so its semantics follow §4.1/§8 of the spec: a stored
entry is valid while `now - insertedAt < ttl`, a valid entry is returned
without invoking the operation, otherwise the operation runs and a
successful value is stored (overwriting), while a failure is returned
without being stored (no negative caching). -/
def fetch {α : Type} (key : String) (op : Unit → Option α) (ttl now : ℕ)
    (σ : CacheState α) : FetchResult α :=
  let runOp : FetchResult α :=
    match op () with
    | some v => ⟨some v, (key, ⟨v, now⟩) :: σ, true⟩
    | none => ⟨none, σ, true⟩
  match σ.lookup key with
  | some e => if now - e.insertedAt < ttl then ⟨some e.value, σ, false⟩ else runOp
  | none => runOp

/-- The cached quote fetcher: `get_live_price` wrapped by
`@st.cache_data(ttl=60)`, keyed by the ticker symbol.  `op` abstracts the
remote history download for that symbol. -/
def cached_get_live_price (ticker : String)
    (op : Unit → Except Unit HistoryDF) (now : ℕ) (σ : CacheState Quote) :
    FetchResult Quote :=
  fetch ticker (fun u => get_live_price (op u)) 60 now σ



/-- A negative in-range index through `iloc` succeeds and yields the element
counted from the end of the list. -/
theorem iloc_neg_ok {α : Type} (xs : List α) (i : ℤ) (h1 : i < 0)
    (h2 : 0 ≤ (xs.length : ℤ) + i) :
    ∃ a, iloc xs i = .ok a ∧ xs.get? ((xs.length : ℤ) + i).toNat = some a := by
  have hcond : 0 ≤ (xs.length : ℤ) + i ∧ (xs.length : ℤ) + i < (xs.length : ℤ) := ⟨h2, by omega⟩
  cases hg : xs.get? ((xs.length : ℤ) + i).toNat with
  | none =>
    have := List.get?_eq_none.mp hg
    omega
  | some a =>
    refine ⟨a, ?_, rfl⟩
    simp only [iloc, if_pos h1, if_pos hcond, hg]

/-- C9: for a ticker whose fetched history is non-empty but has exactly one
row, `get_live_price` returns `none` (the no-data sentinel) even though a
current price exists: the `iloc` access at index `-2` to the previous close
is out of bounds and the resulting error is absorbed by the catch-all
handler. -/
theorem claim_C9_single_row (r : PriceRow) (b : Bool) :
    get_live_price (.ok ⟨[r], b⟩) = none := rfl

/-- C10: `get_weather` is total over port-name strings: for a port that is
not among the four entries of the static coordinate table it silently falls
back to Mundra's coordinates `(22.8, 69.7)` and returns that location's
weather rather than failing or returning the sentinel. -/
theorem claim_C10_unknown_port (port : String)
    (netOp : ℚ × ℚ → ℕ → Except Unit CurrentWeather) (w : CurrentWeather)
    (hport : coords.lookup port = none)
    (hok : netOp (22.8, 69.7) 2 = .ok w) :
    get_weather port netOp = some w := by
  simp [get_weather, hport, hok]

/-- Witness for C10 at the concrete unknown port "Singapore". -/
theorem claim_C10_witness :
    get_weather "Singapore" (fun _ _ => .ok ⟨30, 10⟩) = some ⟨30, 10⟩ :=
  claim_C10_unknown_port "Singapore" (fun _ _ => .ok ⟨30, 10⟩) ⟨30, 10⟩ rfl rfl

/-- C6: with an absent (empty) news API key, `get_news_ticker` returns a
distinct missing-configuration fallback message that differs from the
network-failure sentinel string, and performs no network call (the invoked
flag is `false`). -/
theorem claim_C6_missing_key (netOp : ℕ → Except Unit (List Article)) :
    get_news_ticker "" netOp =
      ("⚠️ News API Key Missing. Add to secrets.toml to see live news.", false) ∧
    "⚠️ News API Key Missing. Add to secrets.toml to see live news." ≠
      "News feed unavailable." :=
  ⟨rfl, by decide⟩

/-- C7: if the news provider responds successfully but with zero articles,
`get_news_ticker` returns the defined non-empty fallback string, never an
empty list or empty string. -/
theorem claim_C7_zero_articles (apiKey : String)
    (netOp : ℕ → Except Unit (List Article))
    (hk : apiKey ≠ "") (hop : netOp 3 = .ok []) :
    (get_news_ticker apiKey netOp).1 = "No recent news found." ∧
    "No recent news found." ≠ "" := by
  constructor
  · simp [get_news_ticker, hk, hop]
  · decide

/-- Witness for C7 at a concrete key and a zero-article response. -/
theorem claim_C7_witness :
    (get_news_ticker "k" (fun _ => .ok [])).1 = "No recent news found." ∧
    "No recent news found." ≠ "" :=
  claim_C7_zero_articles "k" (fun _ => .ok []) (by decide) rfl

/-- C8: symbol-mapping lookup is total and deterministic: every currency
pair offered in the currency selectbox and every commodity name offered in
the commodity selectbox resolves, via `map_fx` and `COMMODITY_MAP`, to
exactly one provider ticker string. -/
theorem claim_C8_mapping_total :
    (∀ p ∈ currency_options, ∃! t, map_fx.lookup p = some t) ∧
    (∀ n ∈ commodity_options, ∃! t, COMMODITY_MAP.lookup n = some t) := by
  constructor
  · intro p hp
    fin_cases hp <;>
      exact ⟨_, rfl, fun y hy => (Option.some.inj hy).symm⟩
  · intro n hn
    fin_cases hn <;>
      exact ⟨_, rfl, fun y hy => (Option.some.inj hy).symm⟩

/-- Witness for C8 at the concrete options "USD/INR" and "Crude Oil". -/
theorem claim_C8_witness :
    (∃! t, map_fx.lookup "USD/INR" = some t) ∧
    (∃! t, COMMODITY_MAP.lookup "Crude Oil" = some t) :=
  ⟨claim_C8_mapping_total.1 "USD/INR" (by simp [currency_options]),
   claim_C8_mapping_total.2 "Crude Oil" (by simp [commodity_options, COMMODITY_MAP])⟩

/-- Helper: with a key present, a raising/timing-out news operation yields
the network-failure sentinel string. -/
lemma news_sentinel_error (apiKey : String) (netOp : ℕ → Except Unit (List Article))
    (hk : apiKey ≠ "") (hop : netOp 3 = .error ()) :
    (get_news_ticker apiKey netOp).1 = "News feed unavailable." := by
  simp [get_news_ticker, hk, hop]

/-- Helper: with a key present, a successful news response with zero
articles yields the no-news fallback string. -/
lemma news_sentinel_empty (apiKey : String) (netOp : ℕ → Except Unit (List Article))
    (hk : apiKey ≠ "") (hop : netOp 3 = .ok []) :
    (get_news_ticker apiKey netOp).1 = "No recent news found." := by
  simp [get_news_ticker, hk, hop]

/-- Helper: a raising/timing-out weather operation yields the `none`
sentinel. -/
lemma weather_sentinel_error (port : String)
    (netOp : ℚ × ℚ → ℕ → Except Unit CurrentWeather)
    (h : ∀ c t, netOp c t = .error ()) :
    get_weather port netOp = none := by
  simp [get_weather, h]

/-- C3: no fetch function propagates a failure of the underlying remote
operation (in this embedding the functions are total by construction, so
never raising amounts to every failure outcome mapping to the sentinel):
on exception or timeout, and on empty response, `get_live_price` returns
`none`, `get_news_ticker` returns a fixed placeholder string, and
`get_weather` returns `none`. -/
theorem claim_C3_failure_sentinels :
    (∀ b : Bool, get_live_price (.error ()) = none ∧ get_live_price (.ok ⟨[], b⟩) = none) ∧
    (∀ (apiKey : String) (netOp : ℕ → Except Unit (List Article)), apiKey ≠ "" →
      netOp 3 = .error () → (get_news_ticker apiKey netOp).1 = "News feed unavailable.") ∧
    (∀ (apiKey : String) (netOp : ℕ → Except Unit (List Article)), apiKey ≠ "" →
      netOp 3 = .ok [] → (get_news_ticker apiKey netOp).1 = "No recent news found.") ∧
    (∀ (port : String) (netOp : ℚ × ℚ → ℕ → Except Unit CurrentWeather),
      (∀ c t, netOp c t = .error ()) → get_weather port netOp = none) :=
  ⟨fun _ => ⟨rfl, rfl⟩, news_sentinel_error, news_sentinel_empty, weather_sentinel_error⟩

/-- Witness for C3 at concrete failing operations. -/
theorem claim_C3_witness :
    (get_live_price (.error ()) = none ∧ get_live_price (.ok ⟨[], true⟩) = none) ∧
    (get_news_ticker "k" (fun _ => .error ())).1 = "News feed unavailable." ∧
    (get_news_ticker "k" (fun _ => .ok [])).1 = "No recent news found." ∧
    get_weather "JNPT" (fun _ _ => .error ()) = none :=
  ⟨claim_C3_failure_sentinels.1 true,
   claim_C3_failure_sentinels.2.1 "k" (fun _ => .error ()) (by decide) rfl,
   claim_C3_failure_sentinels.2.2.1 "k" (fun _ => .ok []) (by decide) rfl,
   claim_C3_failure_sentinels.2.2.2 "JNPT" (fun _ _ => .error ()) (fun _ _ => rfl)⟩

/-- C4: for every ticker whose history has at least two rows,
`get_live_price` succeeds and the returned `change` equals
`(current - reference) / reference * 100` where `current` is the last
`Close` value and `reference` is the last-but-one `Close` value. -/
theorem claim_C4_change_formula (l : List PriceRow) (b : Bool) (h : 2 ≤ l.length) :
    ∃ (q : Quote) (c1 c0 : ℚ),
      get_live_price (.ok ⟨l, b⟩) = some q ∧
      (l.map PriceRow.Close).get? (l.length - 1) = some c1 ∧
      (l.map PriceRow.Close).get? (l.length - 2) = some c0 ∧
      q.price = c1 ∧ q.change = (c1 - c0) / c0 * 100 := by
  have hlc : (l.map PriceRow.Close).length = l.length := List.length_map _ _
  have hlv : (l.map PriceRow.Volume).length = l.length := List.length_map _ _
  obtain ⟨c1, hok1, hget1⟩ :=
    iloc_neg_ok (l.map PriceRow.Close) (-1) (by norm_num) (by omega)
  obtain ⟨c0, hok0, hget0⟩ :=
    iloc_neg_ok (l.map PriceRow.Close) (-2) (by norm_num) (by omega)
  have hne : l ≠ [] := by
    intro hnil
    rw [hnil] at h
    simp at h
  have ht1 : (((l.map PriceRow.Close).length : ℤ) + (-1)).toNat = l.length - 1 := by omega
  have ht0 : (((l.map PriceRow.Close).length : ℤ) + (-2)).toNat = l.length - 2 := by omega
  rw [ht1] at hget1
  rw [ht0] at hget0
  obtain ⟨vol, hvol⟩ :
      ∃ vol, (if b then iloc (l.map PriceRow.Volume) (-1) else .ok 0) = .ok vol := by
    cases b with
    | false => exact ⟨0, rfl⟩
    | true =>
      obtain ⟨a, ha, -⟩ := iloc_neg_ok (l.map PriceRow.Volume) (-1) (by norm_num) (by omega)
      exact ⟨a, by simpa using ha⟩
  refine ⟨⟨c1, (c1 - c0) / c0 * 100, vol, l, "Live 🟢"⟩, c1, c0, ?_, hget1, hget0, rfl, rfl⟩
  simp only [get_live_price, get_live_price_body, Except.bind, if_neg hne, hok1, hok0, hvol]

/-- Witness for C4 at a concrete two-row history. -/
theorem claim_C4_witness :
    ∃ (q : Quote) (c1 c0 : ℚ),
      get_live_price (.ok ⟨[⟨1, 1, 1, 1, 1⟩, ⟨1, 1, 1, 2, 1⟩], false⟩) = some q ∧
      (([⟨1, 1, 1, 1, 1⟩, ⟨1, 1, 1, 2, 1⟩] : List PriceRow).map PriceRow.Close).get?
        (([⟨1, 1, 1, 1, 1⟩, ⟨1, 1, 1, 2, 1⟩] : List PriceRow).length - 1) = some c1 ∧
      (([⟨1, 1, 1, 1, 1⟩, ⟨1, 1, 1, 2, 1⟩] : List PriceRow).map PriceRow.Close).get?
        (([⟨1, 1, 1, 1, 1⟩, ⟨1, 1, 1, 2, 1⟩] : List PriceRow).length - 2) = some c0 ∧
      q.price = c1 ∧ q.change = (c1 - c0) / c0 * 100 :=
  claim_C4_change_formula [⟨1, 1, 1, 1, 1⟩, ⟨1, 1, 1, 2, 1⟩] false (by decide)

/-- C5 fails as stated: the quote-lookup call site passes no timeout
argument, so it is not the case that every remote operation of the fetch
layer is bounded by a 2-to-3-second timeout. -/
theorem claim_C5_counterexample :
    ¬ (∀ c ∈ remote_calls, ∃ t, c.timeout = some t ∧ 2 ≤ t ∧ t ≤ 3) := by
  intro h
  obtain ⟨t, ht, -⟩ := h ⟨"yfinance", none⟩ (by simp [remote_calls])
  exact Option.noConfusion ht

/-- C5 (amended): every call site that passes a timeout passes one of 2 to
3 seconds -- the news and weather operations are bounded by 3 s and 2 s
respectively -- but the quote lookup passes no timeout; on timeout (an
exception outcome) an operation is treated identically to any other
failure and the no-data sentinel is returned. -/
theorem claim_C5_amended :
    (∀ c ∈ remote_calls, ∀ t, c.timeout = some t → 2 ≤ t ∧ t ≤ 3) ∧
    remote_calls.map RemoteCall.timeout = [none, some 3, some 2] ∧
    (∀ (apiKey : String) (netOp : ℕ → Except Unit (List Article)), apiKey ≠ "" →
      netOp 3 = .error () → (get_news_ticker apiKey netOp).1 = "News feed unavailable.") ∧
    (∀ (port : String) (netOp : ℚ × ℚ → ℕ → Except Unit CurrentWeather),
      (∀ c t, netOp c t = .error ()) → get_weather port netOp = none) := by
  refine ⟨?_, rfl, news_sentinel_error, weather_sentinel_error⟩
  intro c hc t ht
  fin_cases hc <;> simp_all <;> omega

/-- Witness for the amended C5 at the news call site and concrete failing
operations. -/
theorem claim_C5_witness :
    (2 ≤ 3 ∧ 3 ≤ 3) ∧
    (get_news_ticker "k2" (fun _ => .error ())).1 = "News feed unavailable." ∧
    get_weather "Chennai" (fun _ _ => .error ()) = none :=
  ⟨claim_C5_amended.1 ⟨"newsapi", some 3⟩ (by simp [remote_calls]) 3 rfl,
   claim_C5_amended.2.2.1 "k2" (fun _ => .error ()) (by decide) rfl,
   claim_C5_amended.2.2.2 "Chennai" (fun _ _ => .error ()) (fun _ _ => rfl)⟩

/-- Helper: looking up a key in a cache state that starts with a binding
for that key returns that binding. -/
lemma lookup_cons_self {α : Type} (key : String) (e : CacheEntry α)
    (σ : CacheState α) : ((key, e) :: σ).lookup key = some e := by
  simp [List.lookup]

/-- Helper: a fetch against a fresh cache entry returns the stored value
without invoking the operation and leaves the state unchanged. -/
lemma fetch_hit {α : Type} (key : String) (op : Unit → Option α) (ttl now ins : ℕ)
    (v : α) (σ : CacheState α)
    (hl : σ.lookup key = some ⟨v, ins⟩) (hfr : now - ins < ttl) :
    fetch key op ttl now σ = ⟨some v, σ, false⟩ := by
  simp [fetch, hl, hfr]

/-- Helper: a fetch that invoked its operation and returned a value stored
that value in the cache under the key, stamped with the current time. -/
lemma fetch_success_state {α : Type} (key : String) (op : Unit → Option α)
    (ttl now : ℕ) (σ : CacheState α) (v : α)
    (hinv : (fetch key op ttl now σ).invoked = true)
    (hres : (fetch key op ttl now σ).result = some v) :
    op () = some v ∧ (fetch key op ttl now σ).state = (key, ⟨v, now⟩) :: σ := by
  simp only [fetch] at hinv hres ⊢
  cases hl : σ.lookup key with
  | none =>
    simp only [hl] at hres ⊢
    cases hop : op () with
    | none => simp [hop] at hres
    | some w =>
      simp only [hop] at hres ⊢
      obtain rfl : w = v := by simpa using hres
      exact ⟨rfl, rfl⟩
  | some e =>
    by_cases hfr : now - e.insertedAt < ttl
    · simp [hl, hfr] at hinv
    · simp only [hl, if_neg hfr] at hres ⊢
      cases hop : op () with
      | none => simp [hop] at hres
      | some w =>
        simp only [hop] at hres ⊢
        obtain rfl : w = v := by simpa using hres
        exact ⟨rfl, rfl⟩

/-- Helper: a fetch that returned the failure sentinel left the cache
unchanged, invoked its operation, and any entry under the key was stale. -/
lemma fetch_failure_state {α : Type} (key : String) (op : Unit → Option α)
    (ttl now : ℕ) (σ : CacheState α)
    (hres : (fetch key op ttl now σ).result = none) :
    op () = none ∧ (fetch key op ttl now σ).state = σ ∧
    (fetch key op ttl now σ).invoked = true ∧
    (∀ e, σ.lookup key = some e → ¬ (now - e.insertedAt < ttl)) := by
  simp only [fetch] at hres ⊢
  cases hl : σ.lookup key with
  | none =>
    simp only [hl] at hres ⊢
    cases hop : op () with
    | some w => simp [hop] at hres
    | none => exact ⟨rfl, rfl, rfl, fun e he => Option.noConfusion he⟩
  | some e =>
    by_cases hfr : now - e.insertedAt < ttl
    · simp [hl, hfr] at hres
    · simp only [hl, if_neg hfr] at hres ⊢
      cases hop : op () with
      | some w => simp [hop] at hres
      | none =>
        refine ⟨rfl, rfl, rfl, ?_⟩
        intro e2 he2
        obtain rfl : e = e2 := by simpa using he2
        exact hfr

/-- Helper: when any entry under the key is stale, a fetch invokes the
operation and returns its outcome. -/
lemma fetch_miss_invokes {α : Type} (key : String) (op : Unit → Option α)
    (ttl now : ℕ) (σ : CacheState α)
    (hmiss : ∀ e, σ.lookup key = some e → ¬ (now - e.insertedAt < ttl)) :
    (fetch key op ttl now σ).invoked = true ∧
    (fetch key op ttl now σ).result = op () := by
  simp only [fetch]
  cases hl : σ.lookup key with
  | none => cases hop : op () <;> simp [hop]
  | some e =>
    simp only [hl, if_neg (hmiss e hl)]
    cases hop : op () <;> simp [hop]

/-- C1: if the cached `get_live_price` succeeds at time `t0` by invoking
the remote operation and yields quote `v`, then a second call with the
same ticker at `t1` with `t1 - t0 < 60` (the configured TTL) returns `v`
without invoking the remote operation, even if the remote source would now
return a different value. -/
theorem claim_C1_cache_hit (ticker : String)
    (op1 op2 : Unit → Except Unit HistoryDF) (t0 t1 : ℕ) (v : Quote)
    (σ : CacheState Quote)
    (hinv : (cached_get_live_price ticker op1 t0 σ).invoked = true)
    (hres : (cached_get_live_price ticker op1 t0 σ).result = some v)
    (hfresh : t1 - t0 < 60) :
    (cached_get_live_price ticker op2 t1
      (cached_get_live_price ticker op1 t0 σ).state).result = some v ∧
    (cached_get_live_price ticker op2 t1
      (cached_get_live_price ticker op1 t0 σ).state).invoked = false := by
  simp only [cached_get_live_price] at hinv hres ⊢
  obtain ⟨-, hstate⟩ := fetch_success_state _ _ _ _ _ _ hinv hres
  rw [hstate]
  rw [fetch_hit _ _ 60 t1 t0 v _ (lookup_cons_self ticker ⟨v, t0⟩ σ) hfresh]
  exact ⟨rfl, rfl⟩

/-- C2: a failed fetch is not cached: if the cached `get_live_price` fails
(yields the `none` sentinel), the cache state is unchanged and a second
call with the same ticker within the TTL invokes the underlying remote
operation again instead of returning a cached failure. -/
theorem claim_C2_no_negative_caching (ticker : String)
    (op1 op2 : Unit → Except Unit HistoryDF) (t0 t1 : ℕ) (σ : CacheState Quote)
    (hres : (cached_get_live_price ticker op1 t0 σ).result = none)
    (h01 : t0 ≤ t1) (_hfresh : t1 - t0 < 60) :
    (cached_get_live_price ticker op1 t0 σ).state = σ ∧
    (cached_get_live_price ticker op2 t1
      (cached_get_live_price ticker op1 t0 σ).state).invoked = true ∧
    (cached_get_live_price ticker op2 t1
      (cached_get_live_price ticker op1 t0 σ).state).result =
        get_live_price (op2 ()) := by
  simp only [cached_get_live_price] at hres ⊢
  obtain ⟨-, hstate, -, hmiss⟩ := fetch_failure_state _ _ _ _ _ hres
  have hmiss2 : ∀ e, σ.lookup ticker = some e → ¬ (t1 - e.insertedAt < 60) := by
    intro e he
    have := hmiss e he
    omega
  obtain ⟨hi2, hr2⟩ :=
    fetch_miss_invokes ticker (fun u => get_live_price (op2 u)) 60 t1 σ hmiss2
  rw [hstate]
  exact ⟨rfl, hi2, hr2⟩

/-- Witness for C1: a first call at time 0 fetches a quote priced 2; the
second call at time 10 returns the cached quote without invoking an
operation that would now yield price 3. -/
theorem claim_C1_witness :
    (cached_get_live_price "INR=X"
        (fun _ => .ok ⟨[⟨1, 1, 1, 2, 1⟩, ⟨1, 1, 1, 3, 1⟩], false⟩) 10
        (cached_get_live_price "INR=X"
          (fun _ => .ok ⟨[⟨1, 1, 1, 1, 1⟩, ⟨1, 1, 1, 2, 1⟩], false⟩) 0 []).state).result =
      some ⟨2, 100, 0, [⟨1, 1, 1, 1, 1⟩, ⟨1, 1, 1, 2, 1⟩], "Live 🟢"⟩ ∧
    (cached_get_live_price "INR=X"
        (fun _ => .ok ⟨[⟨1, 1, 1, 2, 1⟩, ⟨1, 1, 1, 3, 1⟩], false⟩) 10
        (cached_get_live_price "INR=X"
          (fun _ => .ok ⟨[⟨1, 1, 1, 1, 1⟩, ⟨1, 1, 1, 2, 1⟩], false⟩) 0 []).state).invoked = false :=
  claim_C1_cache_hit "INR=X"
    (fun _ => .ok ⟨[⟨1, 1, 1, 1, 1⟩, ⟨1, 1, 1, 2, 1⟩], false⟩)
    (fun _ => .ok ⟨[⟨1, 1, 1, 2, 1⟩, ⟨1, 1, 1, 3, 1⟩], false⟩)
    0 10 ⟨2, 100, 0, [⟨1, 1, 1, 1, 1⟩, ⟨1, 1, 1, 2, 1⟩], "Live 🟢"⟩ [] rfl
    (by simp only [cached_get_live_price, fetch, get_live_price, get_live_price_body,
          iloc, Except.bind, List.lookup, List.map, List.length]
        norm_num [Quote.mk.injEq]
        simp)
    (by decide)

/-- Witness for C2: after a failing call at time 0 the cache stays empty
and a call at time 10 invokes the operation again. -/
theorem claim_C2_witness :
    (cached_get_live_price "INR=X" (fun _ => .error ()) 0 []).state = [] ∧
    (cached_get_live_price "INR=X" (fun _ => .error ()) 10
      (cached_get_live_price "INR=X" (fun _ => .error ()) 0 []).state).invoked = true ∧
    (cached_get_live_price "INR=X" (fun _ => .error ()) 10
      (cached_get_live_price "INR=X" (fun _ => .error ()) 0 []).state).result =
        get_live_price ((fun _ : Unit => (.error () : Except Unit HistoryDF)) ()) :=
  claim_C2_no_negative_caching "INR=X" (fun _ => .error ()) (fun _ => .error ())
    0 10 [] rfl (by decide) (by decide)

end Eximpulse
